import Mathlib

/-!
Verification of the XwAI-FastMCP result-normalization, method-translation,
knowledge-gateway and tool-use-orchestration logic.

The Python values that flow through the code (JSON-RPC payloads, parsed
HTTP bodies, tool results) are modelled by the inductive type `Value`,
covering exactly the JSON universe produced by response parsing: None,
booleans, integers, strings, lists and dicts (dicts as association lists
in insertion order, keys unique in every payload the system builds).
Python truthiness, `json.dumps`, `str()` and `repr()` are modelled
explicitly.  Operations that can raise are modelled in an `Except String`
monad whose error carries the exception message text.
-/

inductive Value where
  | null : Value
  | bool (b : Bool) : Value
  | int (n : Int) : Value
  | str (s : String) : Value
  | list (items : List Value) : Value
  | dict (entries : List (String × Value)) : Value

/-- First-occurrence key lookup on a dict, modelling Python `d[k]` / `d.get(k)`
(dict keys are unique, so first occurrence is the occurrence). -/
def lookup : List (String × Value) → String → Option Value
  | [], _ => none
  | (k, v) :: t, key => if k = key then some v else lookup t key

/-- Models Python `k in d` for a dict. -/
def hasKey (entries : List (String × Value)) (key : String) : Bool :=
  (lookup entries key).isSome

/-- Python truthiness of a value: None, False, 0, empty string, empty list
and empty dict are falsy, everything else is truthy. -/
def truthy : Value → Bool
  | .null => false
  | .bool b => b
  | .int n => n != 0
  | .str s => !s.isEmpty
  | .list items => !items.isEmpty
  | .dict entries => !entries.isEmpty

/-- Models Python `v == "s"` for a string literal on the right: true exactly
when `v` is that string (values of other types never compare equal). -/
def isStrVal (v : Value) (s : String) : Bool :=
  match v with
  | .str x => x = s
  | _ => false

/-- Python type name of a value, as it appears in TypeError messages. -/
def pyTypeName : Value → String
  | .null => "NoneType"
  | .bool _ => "bool"
  | .int _ => "int"
  | .str _ => "str"
  | .list _ => "list"
  | .dict _ => "dict"

/-- Lower-case hex digit. -/
def hexDigit (n : Nat) : Char :=
  if n < 10 then Char.ofNat (48 + n) else Char.ofNat (87 + (n % 16))

def hex2 (n : Nat) : String :=
  String.mk [hexDigit ((n / 16) % 16), hexDigit (n % 16)]

def hex4 (n : Nat) : String :=
  String.mk [hexDigit ((n / 4096) % 16), hexDigit ((n / 256) % 16),
             hexDigit ((n / 16) % 16), hexDigit (n % 16)]

/-- One character of `json.dumps` output with the default `ensure_ascii=True`:
characters outside the printable ASCII range 0x20..0x7e are escaped, with the
usual short escapes for quote, backslash and common control characters. -/
def jsonEscapeChar (c : Char) : String :=
  if c = '"' then "\\\""
  else if c = '\\' then "\\\\"
  else if c = '\n' then "\\n"
  else if c = '\r' then "\\r"
  else if c = '\t' then "\\t"
  else if c.toNat = 8 then "\\b"
  else if c.toNat = 12 then "\\f"
  else if c.toNat < 32 then "\\u" ++ hex4 c.toNat
  else if c.toNat < 127 then String.singleton c
  else if c.toNat < 65536 then "\\u" ++ hex4 c.toNat
  else
    "\\u" ++ hex4 (55296 + (c.toNat - 65536) / 1024) ++
    "\\u" ++ hex4 (56320 + (c.toNat - 65536) % 1024)

def jsonEscape (s : String) : String :=
  s.data.foldl (fun acc c => acc ++ jsonEscapeChar c) ""

mutual

/-- Models Python `json.dumps(v)` with default separators.  `json.dumps` is
total on the JSON value universe that `Value` models (it raises only for
objects outside that universe, which cannot occur in a parsed payload). -/
def dumps : Value → String
  | .null => "null"
  | .bool true => "true"
  | .bool false => "false"
  | .int n => toString n
  | .str s => "\"" ++ jsonEscape s ++ "\""
  | .list items => "[" ++ dumpsList items ++ "]"
  | .dict entries => "\x7b" ++ dumpsEntries entries ++ "\x7d"

def dumpsList : List Value → String
  | [] => ""
  | [v] => dumps v
  | v :: w :: t => dumps v ++ ", " ++ dumpsList (w :: t)

def dumpsEntries : List (String × Value) → String
  | [] => ""
  | [(k, v)] => "\"" ++ jsonEscape k ++ "\": " ++ dumps v
  | (k, v) :: e :: t =>
      "\"" ++ jsonEscape k ++ "\": " ++ dumps v ++ ", " ++ dumpsEntries (e :: t)

end

/-- One character of Python `repr` output for a string quoted with `q`. -/
def reprEscapeChar (q : Char) (c : Char) : String :=
  if c = '\\' then "\\\\"
  else if c = q then "\\" ++ String.singleton q
  else if c = '\n' then "\\n"
  else if c = '\r' then "\\r"
  else if c = '\t' then "\\t"
  else if c.toNat < 32 || c.toNat = 127 then "\\x" ++ hex2 c.toNat
  else String.singleton c

/-- Python `repr` of a string: single-quoted, except double-quoted when the
string contains a single quote but no double quote. -/
def pyReprStr (s : String) : String :=
  if s.data.contains '\'' && !(s.data.contains '"') then
    "\"" ++ s.data.foldl (fun acc c => acc ++ reprEscapeChar '"' c) "" ++ "\""
  else
    "'" ++ s.data.foldl (fun acc c => acc ++ reprEscapeChar '\'' c) "" ++ "'"

mutual

/-- Models Python `repr(v)` on the JSON value universe. -/
def pyRepr : Value → String
  | .null => "None"
  | .bool true => "True"
  | .bool false => "False"
  | .int n => toString n
  | .str s => pyReprStr s
  | .list items => "[" ++ pyReprList items ++ "]"
  | .dict entries => "\x7b" ++ pyReprEntries entries ++ "\x7d"

def pyReprList : List Value → String
  | [] => ""
  | [v] => pyRepr v
  | v :: w :: t => pyRepr v ++ ", " ++ pyReprList (w :: t)

def pyReprEntries : List (String × Value) → String
  | [] => ""
  | [(k, v)] => pyReprStr k ++ ": " ++ pyRepr v
  | (k, v) :: e :: t => pyReprStr k ++ ": " ++ pyRepr v ++ ", " ++ pyReprEntries (e :: t)

end

/-- Models Python `str(v)`: the string itself for strings, `repr` otherwise. -/
def pyStr : Value → String
  | .str s => s
  | v => pyRepr v

/-- Models Python `"".join(parts)` for the collected `text_parts`: succeeds
with the concatenation when every part is a string and raises a TypeError
(whose message is the error value) at the first non-string part. -/
def joinStrs (idx : Nat) : List Value → Except String String
  | [] => .ok ""
  | .str s :: t =>
      match joinStrs (idx + 1) t with
      | .ok rest => .ok (s ++ rest)
      | .error e => .error e
  | v :: _ =>
      .error ("sequence item " ++ toString idx ++ ": expected str instance, " ++
              pyTypeName v ++ " found")

example : dumps (.dict [("a", .int 1), ("b", .list [.str "x", .null])]) =
    "\x7b\"a\": 1, \"b\": [\"x\", null]\x7d" := rfl

example : pyStr (.dict [("a", .str "hi")]) = "\x7b'a': 'hi'\x7d" := rfl

example : joinStrs 0 [.str "a", .str "b"] = .ok "ab" := rfl

example : joinStrs 0 [.int 5] =
    .error "sequence item 0: expected str instance, int found" := rfl

/-! ### A model of `json.loads`

`json.loads` is used by `ResultProcessor.to_dict` / `ResultProcessor.process`
on string payloads.  The parser below follows the JSON grammar on the value
universe of `Value`; numeric literals with a fractional or exponent part lie
outside that universe (no claim exercises them) and are rejected. -/

def lbrace : Char := Char.ofNat 123

def rbrace : Char := Char.ofNat 125

def skipWs : List Char → List Char
  | [] => []
  | c :: t => if c = ' ' || c = '\n' || c = '\t' || c = '\r' then skipWs t else c :: t

def isHexChar (c : Char) : Bool :=
  c.isDigit || (97 ≤ c.toNat && c.toNat ≤ 102) || (65 ≤ c.toNat && c.toNat ≤ 70)

def hexCharVal (c : Char) : Nat :=
  if c.isDigit then c.toNat - 48
  else if 97 ≤ c.toNat then c.toNat - 87
  else c.toNat - 55

def jsonStringBody (acc : List Char) : List Char → Option (String × List Char)
  | [] => none
  | '"' :: r => some (String.mk acc.reverse, r)
  | '\\' :: rest =>
      match rest with
      | '"' :: r => jsonStringBody ('"' :: acc) r
      | '\\' :: r => jsonStringBody ('\\' :: acc) r
      | '/' :: r => jsonStringBody ('/' :: acc) r
      | 'n' :: r => jsonStringBody ('\n' :: acc) r
      | 't' :: r => jsonStringBody ('\t' :: acc) r
      | 'r' :: r => jsonStringBody ('\r' :: acc) r
      | 'b' :: r => jsonStringBody (Char.ofNat 8 :: acc) r
      | 'f' :: r => jsonStringBody (Char.ofNat 12 :: acc) r
      | 'u' :: a :: b :: c :: d :: r =>
          if isHexChar a && isHexChar b && isHexChar c && isHexChar d then
            jsonStringBody
              (Char.ofNat (((hexCharVal a * 16 + hexCharVal b) * 16 +
                hexCharVal c) * 16 + hexCharVal d) :: acc) r
          else none
      | _ => none
  | c :: r => jsonStringBody (c :: acc) r

def digitsToNat (ds : List Char) : Nat :=
  ds.foldl (fun a c => a * 10 + (c.toNat - 48)) 0

def jsonNumberBody (cs : List Char) : Option (Value × List Char) :=
  let core : List Char → Option (Nat × List Char) := fun l =>
    let p := l.span (·.isDigit)
    if p.1 = [] then none
    else
      match p.2 with
      | c :: _ => if c = '.' || c = 'e' || c = 'E' then none else some (digitsToNat p.1, p.2)
      | [] => some (digitsToNat p.1, [])
  match cs with
  | '-' :: r => (core r).map (fun p => (.int (-(p.1 : Int)), p.2))
  | _ => (core cs).map (fun p => (.int (p.1 : Int), p.2))

mutual

def jsonValue : Nat → List Char → Option (Value × List Char)
  | 0, _ => none
  | Nat.succ fuel, cs =>
      match skipWs cs with
      | [] => none
      | c :: r =>
          if c = '"' then
            (jsonStringBody [] r).map (fun p => (.str p.1, p.2))
          else if c = lbrace then
            match skipWs r with
            | d :: r2 =>
                if d = rbrace then some (.dict [], r2)
                else jsonObjLoop fuel (d :: r2) []
            | [] => none
          else if c = '[' then
            match skipWs r with
            | ']' :: r2 => some (.list [], r2)
            | r2 => jsonArrLoop fuel r2 []
          else if c = 'n' then
            match r with
            | 'u' :: 'l' :: 'l' :: r2 => some (.null, r2)
            | _ => none
          else if c = 't' then
            match r with
            | 'r' :: 'u' :: 'e' :: r2 => some (.bool true, r2)
            | _ => none
          else if c = 'f' then
            match r with
            | 'a' :: 'l' :: 's' :: 'e' :: r2 => some (.bool false, r2)
            | _ => none
          else if c.isDigit || c = '-' then jsonNumberBody (c :: r)
          else none

def jsonArrLoop : Nat → List Char → List Value → Option (Value × List Char)
  | 0, _, _ => none
  | Nat.succ fuel, cs, acc =>
      match jsonValue fuel cs with
      | none => none
      | some (v, r) =>
          match skipWs r with
          | ',' :: r2 => jsonArrLoop fuel r2 (v :: acc)
          | ']' :: r2 => some (.list (v :: acc).reverse, r2)
          | _ => none

def jsonObjLoop : Nat → List Char → List (String × Value) → Option (Value × List Char)
  | 0, _, _ => none
  | Nat.succ fuel, cs, acc =>
      match skipWs cs with
      | '"' :: r =>
          match jsonStringBody [] r with
          | none => none
          | some (k, r2) =>
              match skipWs r2 with
              | ':' :: r3 =>
                  match jsonValue fuel r3 with
                  | none => none
                  | some (v, r4) =>
                      match skipWs r4 with
                      | ',' :: r5 => jsonObjLoop fuel r5 ((k, v) :: acc)
                      | c :: r5 =>
                          if c = rbrace then some (.dict ((k, v) :: acc).reverse, r5)
                          else none
                      | [] => none
              | _ => none
      | _ => none

end

/-- Models Python `json.loads(s)`: the parsed value, or `none` when a
`json.JSONDecodeError` is raised. -/
def loads (s : String) : Option Value :=
  match jsonValue (s.length + 2) s.data with
  | some (v, r) => if skipWs r = [] then some v else none
  | none => none

example : loads "\x7b\"a\": [1, true, null, \"x\"]\x7d" =
    some (.dict [("a", .list [.int 1, .bool true, .null, .str "x"])]) := rfl

example : loads "not json" = none := rfl

/-! ### ResultNormalizer: `src/result_processor.py` and `src/tools/utils.py`

`ResultProcessor.extract_text` returns `Optional[str]` in intent, but the
`text` branches return the raw field value, which need not be a string; the
result type is therefore `Option Value`.  The whole computation lives in
`Except String` because the `"".join(text_parts)` calls raise a TypeError
when a collected part is not a string (nothing in `extract_text` catches
it); the error value is the exception message. -/

/-- The `text_parts` collected by the `content`-list branch of
`ResultProcessor.extract_text` (and of its list branch in `to_dict` and
`process` the same way for typed items): here, every dict item contributing
its `text` field, with no `type` check. -/
def contentTextParts (items : List Value) : List Value :=
  items.filterMap (fun it =>
    match it with
    | .dict e => lookup e "text"
    | _ => none)

/-- Models `all(isinstance(item, dict) and "type" in item for item in result)`. -/
def allTypedDicts (items : List Value) : Bool :=
  items.all (fun it =>
    match it with
    | .dict e => hasKey e "type"
    | _ => false)

/-- The `text_parts` collected by the list branches of
`ResultProcessor.extract_text` / `to_dict` / `process`: items whose `type`
equals `"text"` and which carry a `text` key contribute their `text` field. -/
def typedTextParts (items : List Value) : List Value :=
  items.filterMap (fun it =>
    match it with
    | .dict e =>
        match lookup e "type" with
        | some (.str "text") => lookup e "text"
        | _ => none
    | _ => none)

mutual

/-- `ResultProcessor.extract_text` from `src/result_processor.py`, translated
branch for branch: None passes through; strings return themselves; a dict is
tried against, in order, a `content` list of text-carrying items (joined), a
string-valued `content`, a recursive `result` key, a raw `text` key, and the
`json.dumps` fallback; a list of uniformly type-tagged dicts joins the text
of its `"text"`-typed items when there are any, any other list is dumped;
every other value falls back to `str(result)`. -/
def ResultProcessor.extract_text : Value → Except String (Option Value)
  | .null => .ok none
  | .str s => .ok (some (.str s))
  | .dict entries =>
      match
        (match lookup entries "content" with
         | some (.list items) =>
             let parts := contentTextParts items
             if parts.isEmpty then none
             else some (match joinStrs 0 parts with
               | .ok s => Except.ok (some (Value.str s))
               | .error e => Except.error e)
         | _ => none) with
      | some r => r
      | none =>
          match lookup entries "content" with
          | some (.str s) => .ok (some (.str s))
          | _ =>
              match ResultProcessor.extract_result entries with
              | some r => r
              | none =>
                  match lookup entries "text" with
                  | some tv => .ok (some tv)
                  | none => .ok (some (.str (dumps (.dict entries))))
  | .list items =>
      if allTypedDicts items then
        let parts := typedTextParts items
        if parts.isEmpty then .ok (some (.str (dumps (.list items))))
        else
          match joinStrs 0 parts with
          | .ok s => .ok (some (.str s))
          | .error e => .error e
      else .ok (some (.str (dumps (.list items))))
  | v => .ok (some (.str (pyStr v)))

/-- The `result` step of `ResultProcessor.extract_text` on a dict: when a
`result` key is present, recurse on its value (walking the entries keeps the
recursion structural; dict keys are unique so the first hit is the value). -/
def ResultProcessor.extract_result :
    List (String × Value) → Option (Except String (Option Value))
  | [] => none
  | (k, v) :: t =>
      if k = "result" then some (ResultProcessor.extract_text v)
      else ResultProcessor.extract_result t

end

/-- Models `all(isinstance(item, dict) and "type" in item and
item.get("type") == "text" for item in result)` from `utils.extract_text`. -/
def allTextTyped (items : List Value) : Bool :=
  items.all (fun it =>
    match it with
    | .dict e =>
        match lookup e "type" with
        | some (.str "text") => true
        | _ => false
    | _ => false)

/-- The parts of `"".join(item.get("text", "") for item in result)` in the
list branch of `utils.extract_text`. -/
def utilsTextParts (items : List Value) : List Value :=
  items.map (fun it =>
    match it with
    | .dict e => (lookup e "text").getD (.str "")
    | _ => .str "")

mutual

/-- `extract_text` from `src/tools/utils.py`, translated branch for branch.
The optional `fastmcp.content_to_text` fast path is an external collaborator
that is not part of this repository; the function is modelled on its own
manual-extraction logic (the ImportError path).  A dict recurses on its
`content` value, else returns a raw `text` field, else recurses on its
`result` value, else dumps; a list joins `item.get("text", "")` over all
items when every item is a `"text"`-typed dict and is dumped otherwise. -/
def utils_extract_text : Value → Except String (Option Value)
  | .null => .ok none
  | .str s => .ok (some (.str s))
  | .dict entries =>
      match utils_extract_key "content" entries with
      | some r => r
      | none =>
          match lookup entries "text" with
          | some tv => .ok (some tv)
          | none =>
              match utils_extract_key "result" entries with
              | some r => r
              | none => .ok (some (.str (dumps (.dict entries))))
  | .list items =>
      if allTextTyped items then
        match joinStrs 0 (utilsTextParts items) with
        | .ok s => .ok (some (.str s))
        | .error e => .error e
      else .ok (some (.str (dumps (.list items))))
  | v => .ok (some (.str (pyStr v)))

/-- The recursive key step of `utils.extract_text` on a dict: when `key` is
present, recurse on its value. -/
def utils_extract_key (key : String) :
    List (String × Value) → Option (Except String (Option Value))
  | [] => none
  | (k, v) :: t =>
      if k = key then some (utils_extract_text v)
      else utils_extract_key key t

end

example : ResultProcessor.extract_text
    (.dict [("content", .list [.dict [("type", .str "text"), ("text", .str "9-")],
                               .dict [("type", .str "text"), ("text", .str "5")]])]) =
    .ok (some (.str "9-5")) := rfl

example : ResultProcessor.extract_text (.dict [("result", .dict [("text", .str "t")])]) =
    .ok (some (.str "t")) := rfl

example : utils_extract_text (.dict [("content", .str "c"), ("text", .str "t")]) =
    .ok (some (.str "c")) := rfl

example : ResultProcessor.extract_text (.int 7) = .ok (some (.str "7")) := rfl

/-- `ResultProcessor.to_dict` from `src/result_processor.py`.  The `Bool`
component models Python object identity of the returned mapping: `true`
means the function returned the argument object itself (`return result` on
the dict branch), `false` means it built a fresh object, so that a mutation
by the caller cannot reach the source.  The list branch joins the text of
`"text"`-typed items and is therefore in `Except String` (TypeError on
non-string parts propagates, nothing catches it here). -/
def ResultProcessor.to_dict : Value → Except String (Value × Bool)
  | .null => .ok (.dict [("error", .str "No result returned")], false)
  | .dict entries => .ok (.dict entries, true)
  | .str s =>
      match loads s with
      | some j => .ok (j, false)
      | none => .ok (.dict [("result", .str s)], false)
  | .list items =>
      if allTypedDicts items then
        let parts := typedTextParts items
        if parts.isEmpty then .ok (.dict [("result", .list items)], false)
        else
          match joinStrs 0 parts with
          | .ok s => .ok (.dict [("result", .str s)], false)
          | .error e => .error e
      else .ok (.dict [("result", .list items)], false)
  | v => .ok (.dict [("result", .str (pyStr v))], false)

/-- `to_dict` from `src/tools/utils.py` (no typed-list text branch; lists go
straight to `{"result": result}`), with the same object-identity `Bool`. -/
def utils_to_dict : Value → Value × Bool
  | .null => (.dict [("error", .str "No result returned")], false)
  | .dict entries => (.dict entries, true)
  | .str s =>
      match loads s with
      | some j => (j, false)
      | none => (.dict [("result", .str s)], false)
  | .list items => (.dict [("result", .list items)], false)
  | v => (.dict [("result", .str (pyStr v))], false)

/-- The body of `ResultProcessor.process` before its `except` clause.  The
dict branch returns `dict(result)`: a fresh shallow copy, value-equal to the
argument but a new object (identity `Bool` is `false`). -/
def ResultProcessor.process_body : Value → Except String (Value × Bool)
  | .null => .ok (.dict [("error", .str "No result returned")], false)
  | .str s =>
      match loads s with
      | some j => .ok (j, false)
      | none => .ok (.dict [("result", .str s)], false)
  | .dict entries => .ok (.dict entries, false)
  | .list items =>
      if allTypedDicts items then
        let parts := typedTextParts items
        if parts.isEmpty then .ok (.dict [("result", .list items)], false)
        else
          match joinStrs 0 parts with
          | .ok s => .ok (.dict [("result", .str s)], false)
          | .error e => .error e
      else .ok (.dict [("result", .list items)], false)
  | v => .ok (.dict [("result", .str (pyStr v))], false)

/-- `ResultProcessor.process` from `src/result_processor.py`: the body, with
any exception caught and converted to the canonical error mapping. -/
def ResultProcessor.process (result : Value) : Value × Bool :=
  match ResultProcessor.process_body result with
  | .ok r => r
  | .error e => (.dict [("error", .str ("Error processing result: " ++ e))], false)

example : ResultProcessor.to_dict (.str "\x7b\"k\": 1\x7d") =
    .ok (.dict [("k", .int 1)], false) := rfl

example : ResultProcessor.process (.list [.dict [("type", .str "text"), ("text", .int 3)]]) =
    (.dict [("error", .str
      "Error processing result: sequence item 0: expected str instance, int found")],
     false) := rfl

/-! ### MethodTranslator: `SliteMethodTranslator` in `src/tools/slite.py` -/

/-- The per-instance counters of `SliteMethodTranslator`. -/
structure TranslatorState where
  translations_count : Nat
  errors_count : Nat
  last_error : Option String

/-- The argument of `SliteMethodTranslator.__call__`: a `JsonRPCRequest`
object (which carries `method` / `id` / `params` attributes), a plain dict,
or a value of any other type. -/
inductive Req where
  | rpc (method : Value) (id : Value) (params : Value)
  | dict (entries : List (String × Value))
  | other

/-- The shared tail of `SliteMethodTranslator.__call__` once `method`, `id`
and `params` have been extracted.  The non-dict `params` fallthrough models
the AttributeError that `params.get` raises then (caught by the surrounding
`except`, which records the error and passes the request through); the
quoted substrings of the original `last_error` messages are kept without
their quote characters. -/
def SliteMethodTranslator.translate_core (st : TranslatorState) (req : Req)
    (method id params : Value) : Req × TranslatorState :=
  if !(truthy method) || !(truthy params) then
    (req, ⟨st.translations_count, st.errors_count + 1,
           some "Request missing method or params"⟩)
  else if isStrVal method "tools/execute" then
    match params with
    | .dict pe =>
        let tool_name := (lookup pe "name").getD .null
        let tool_input := (lookup pe "input").getD .null
        if !(truthy tool_name) then
          (req, ⟨st.translations_count, st.errors_count + 1,
                 some "tools/execute request missing name in params"⟩)
        else
          (.dict [("jsonrpc", .str "2.0"),
                  ("id", id),
                  ("method", .str "tools/call"),
                  ("params", .dict [("name", tool_name),
                                    ("arguments",
                                     if truthy tool_input then tool_input
                                     else .dict [])])],
           ⟨st.translations_count + 1, st.errors_count, st.last_error⟩)
    | _ =>
        (req, ⟨st.translations_count, st.errors_count + 1,
               some "Error translating request"⟩)
  else (req, st)

/-- `SliteMethodTranslator.__call__`: extract `method` / `id` / `params`
from a request object or a dict (an unrecognized type is counted as an error
and passed through), then translate via `translate_core`. -/
def SliteMethodTranslator.call (st : TranslatorState) (req : Req) :
    Req × TranslatorState :=
  match req with
  | .rpc method id params => SliteMethodTranslator.translate_core st req method id params
  | .dict entries =>
      SliteMethodTranslator.translate_core st req
        ((lookup entries "method").getD .null)
        ((lookup entries "id").getD .null)
        ((lookup entries "params").getD .null)
  | .other =>
      (req, ⟨st.translations_count, st.errors_count + 1,
             some "Invalid request type"⟩)

example : SliteMethodTranslator.call ⟨0, 0, none⟩
    (.dict [("method", .str "tools/execute"), ("id", .str "x"),
            ("params", .dict [("name", .str "ask-slite"),
                              ("input", .dict [("question", .str "q")])])]) =
    (.dict [("jsonrpc", .str "2.0"), ("id", .str "x"),
            ("method", .str "tools/call"),
            ("params", .dict [("name", .str "ask-slite"),
                              ("arguments", .dict [("question", .str "q")])])],
     ⟨1, 0, none⟩) := rfl

/-! ### KnowledgeGateway: `SliteMCPClient` in `src/tools/slite.py`

One JSON-RPC exchange is modelled by a `TransportResult`: the outcome of
`client.post` + `raise_for_status` + `response.json()` for the request the
client built.  `httpErr` is a raised `httpx.HTTPError` (transport failure,
including bad HTTP status), `badJson` a failing `response.json()`, `ok` the
parsed body. -/

inductive TransportResult where
  | httpErr (msg : String)
  | badJson (msg : String)
  | ok (body : Value)

/-- The failure kinds of `SliteMCPClient.call_method`.  In the source all
three are raised as `ValueError`; they are distinguishable by the raise site
and the message prefix ("HTTP error: ", "Slite-MCP error: ",
"Unexpected error: "), which the constructors record. -/
inductive CallErr where
  | remote (msg : String)
  | protocol (msg : String)
  | unexpected (msg : String)

/-- `str(e)` of the raised `ValueError`. -/
def CallErr.message : CallErr → String
  | .remote m => m
  | .protocol m => m
  | .unexpected m => m

def listStartsWith : List Char → List Char → Bool
  | [], _ => true
  | _ :: _, [] => false
  | p :: ps, c :: cs => p = c && listStartsWith ps cs

/-- Substring test, modelling Python `pat in s` for strings. -/
def listHasInfix (pat : List Char) : List Char → Bool
  | [] => listStartsWith pat []
  | c :: cs => listStartsWith pat (c :: cs) || listHasInfix pat cs

/-- Models Python `"error" in result` on a parsed JSON body: key test on a
dict, membership on a list, substring test on a string, TypeError otherwise. -/
def pyInError : Value → Except String Bool
  | .dict entries => .ok (hasKey entries "error")
  | .list items => .ok (items.any (fun v => isStrVal v "error"))
  | .str s => .ok (listHasInfix "error".data s.data)
  | v => .error ("argument of type " ++ pyTypeName v ++ " is not iterable")

/-- `SliteMCPClient.call_method`: build the JSON-RPC request (held in the
`method` / `params` / `request_id` arguments), perform the exchange, raise
`ValueError("HTTP error: ...")` on a transport failure, raise
`ValueError("Slite-MCP error: <message>")` when the response body carries an
`error` field (its `message` sub-field, defaulting to "Unknown error"), and
wrap any other exception as `ValueError("Unexpected error: ...")`.  The
`method`, `params` and `request_id` arguments only shape the outgoing
request, so the outcome depends on the exchange result alone. -/
def SliteMCPClient.call_method (method : String) (params : Value)
    (request_id : String) (resp : TransportResult) : Except CallErr Value :=
  match resp with
  | .httpErr e => .error (.remote ("HTTP error: " ++ e))
  | .badJson e => .error (.unexpected ("Unexpected error: " ++ e))
  | .ok result =>
      match pyInError result with
      | .error te => .error (.unexpected ("Unexpected error: " ++ te))
      | .ok false => .ok result
      | .ok true =>
          match result with
          | .dict entries =>
              match lookup entries "error" with
              | some (.dict ee) =>
                  .error (.protocol ("Slite-MCP error: " ++
                    pyStr ((lookup ee "message").getD (.str "Unknown error"))))
              | some ev =>
                  .error (.unexpected ("Unexpected error: " ++ pyTypeName ev ++
                    " object has no attribute get"))
              | none => .error (.unexpected "Unexpected error: ")
          | v =>
              .error (.unexpected ("Unexpected error: " ++ pyTypeName v ++
                " is not a mapping"))

/-- `SliteMCPClient.call_tool`: call `tools/call` with
`{name, arguments}`; on success return `result.get("result", {})`; any
exception is caught and converted to `{"error": str(e)}`. -/
def SliteMCPClient.call_tool (tool_name : String) (tool_args : Value)
    (resp : TransportResult) : Value :=
  match SliteMCPClient.call_method "tools/call"
      (.dict [("name", .str tool_name), ("arguments", tool_args)]) "xwai" resp with
  | .error e => .dict [("error", .str e.message)]
  | .ok result =>
      match result with
      | .dict entries => (lookup entries "result").getD (.dict [])
      | v => .dict [("error", .str (pyTypeName v ++ " object has no attribute get"))]

/-- `SliteMCPClient.search_notes`: `call_tool("search-notes", {query, limit})`. -/
def SliteMCPClient.search_notes (query : String) (limit : Int)
    (resp : TransportResult) : Value :=
  SliteMCPClient.call_tool "search-notes"
    (.dict [("query", .str query), ("limit", .int limit)]) resp

/-- `SliteMCPClient.ask_slite`: `call_tool("ask-slite", {question})`. -/
def SliteMCPClient.ask_slite (question : String) (resp : TransportResult) : Value :=
  SliteMCPClient.call_tool "ask-slite" (.dict [("question", .str question)]) resp

/-- `SliteMCPClient.get_note`: `call_tool("get-note", {noteId})`. -/
def SliteMCPClient.get_note (note_id : String) (resp : TransportResult) : Value :=
  SliteMCPClient.call_tool "get-note" (.dict [("noteId", .str note_id)]) resp

example : SliteMCPClient.ask_slite "q" (.httpErr "timeout") =
    .dict [("error", .str "HTTP error: timeout")] := rfl

example : SliteMCPClient.ask_slite "q"
    (.ok (.dict [("jsonrpc", .str "2.0"), ("result", .str "fine")])) = .str "fine" := rfl

/-! ### ToolUseOrchestrator: `ask_claude_with_tools` in `src/tools/claude.py`
and `get_claude_response` in `src/tools/direct_claude_slite.py`

A model-endpoint reply is a stop reason plus content blocks; a block carries
its `type` tag and the fields the orchestrators read (`text`, `id`, `name`,
`input`).  The knowledge-gateway call (`await slite_ask(kb_query)`) is
modelled by its outcome: `Except.error m` when the call raises with message
`m`, `Except.ok payload` when it returns `payload`.  Both orchestrators are
modelled from the point where the first model response is in hand (the
claims under verification all condition on that response); the follow-up
model exchange is a further response parameter. -/

structure MsgBlock where
  type : String
  text : String
  id : String
  name : String
  input : List (String × Value)

structure ModelResponse where
  stop_reason : String
  content : List MsgBlock

/-- What one orchestration run produced: the returned mapping, whether the
knowledge gateway was invoked, the `content` field of the `tool_result`
block of the follow-up request when one was sent, and whether that
follow-up request was sent at all. -/
structure RunOutcome where
  result : Value
  gatewayCalled : Bool
  toolResultContent : Option Value
  followupSent : Bool

/-- The `final_response` / `text_response` accumulation loops: concatenate
the `text` of the `"text"`-typed blocks in order. -/
def concatTextBlocks (blocks : List MsgBlock) : String :=
  blocks.foldl (fun acc b => if b.type = "text" then acc ++ b.text else acc) ""

/-- The scan `for item in content_list: if isinstance(item, dict) and "text"
in item: ... break`: the `text` field of the first dict item carrying one. -/
def firstTextItem : List Value → Option Value
  | [] => none
  | .dict e :: t =>
      match lookup e "text" with
      | some tv => some tv
      | none => firstTextItem t
  | _ :: t => firstTextItem t

/-- The shared extraction step of both orchestrators: when the gateway
payload is a dict whose `content` is a list, the `text` of its first
text-carrying dict item. -/
def firstContentText (kb_result : Value) : Option Value :=
  match kb_result with
  | .dict entries =>
      match lookup entries "content" with
      | some (.list items) => firstTextItem items
      | _ => none
  | _ => none

/-- The scan for the first `tool_use` content block. -/
def findToolUse (blocks : List MsgBlock) : Option MsgBlock :=
  blocks.find? (fun c => c.type == "tool_use")

/-- `ask_claude_with_tools` from `src/tools/claude.py`, from the first model
response on.  `query` is the user query, `model` is `config.claude_model`,
`gateway` the outcome of `await slite_ask(kb_query)`, `followup` the second
model response (obtained only when a tool result is sent back). -/
def ask_claude_with_tools (query : String) (model : String)
    (response : ModelResponse) (gateway : Except String Value)
    (followup : ModelResponse) : RunOutcome :=
  if response.stop_reason = "tool_use" then
    match findToolUse response.content with
    | some tool_use =>
        if tool_use.name = "company_knowledge" then
          let kb_query : Value := (lookup tool_use.input "query").getD (.str query)
          match gateway with
          | .error e =>
              ⟨.dict [("error", .str ("Error querying knowledge base: " ++ e))],
               true, none, false⟩
          | .ok kb_result =>
              let rt0 : Value := (firstContentText kb_result).getD .null
              let rt1 : Value := if truthy rt0 then rt0 else .str (dumps kb_result)
              let result_text : String :=
                match rt1 with
                | .str s => s
                | v => pyStr v
              ⟨.dict [("response", .str (concatTextBlocks followup.content)),
                      ("model", .str model), ("tool_used", .bool true)],
               true, some (.str result_text), true⟩
        else
          ⟨.dict [("error", .str ("Unsupported tool requested: " ++ tool_use.name))],
           false, none, false⟩
    | none =>
        ⟨.dict [("error", .str "Unsupported tool requested: None")],
         false, none, false⟩
  else
    ⟨.dict [("response", .str (concatTextBlocks response.content)),
            ("model", .str model), ("tool_used", .bool false)],
     false, none, false⟩

/-- `query_knowledge_base` from `src/tools/direct_claude_slite.py`: on a
raised gateway failure return the error as a plain string; otherwise return
the first content text when truthy, else `json.dumps` of the payload. -/
def query_knowledge_base (gateway : Except String Value) : Value :=
  match gateway with
  | .error e => .str ("Error retrieving knowledge: " ++ e)
  | .ok result =>
      let content : Value := (firstContentText result).getD .null
      if truthy content then content else .str (dumps result)

/-- `get_claude_response` from `src/tools/direct_claude_slite.py`, from the
first model response on (same conventions as `ask_claude_with_tools`;
`show_reasoning` adds the first-round text and raw knowledge string). -/
def get_claude_response (query : String) (model : String)
    (response : ModelResponse) (gateway : Except String Value)
    (followup : ModelResponse) (show_reasoning : Bool) : RunOutcome :=
  if response.stop_reason = "tool_use" then
    match findToolUse response.content with
    | some tool_use =>
        if tool_use.name = "company_knowledge" then
          let kb_query : Value := (lookup tool_use.input "query").getD (.str query)
          let kb_result0 : Value := query_knowledge_base gateway
          let kb_result : String :=
            match kb_result0 with
            | .str s => s
            | v => pyStr v
          let base : List (String × Value) :=
            [("response", .str (concatTextBlocks followup.content)),
             ("model", .str model), ("tool_used", .bool true),
             ("knowledge_query", kb_query)]
          ⟨.dict (if show_reasoning then
                    base ++ [("reasoning", .str (concatTextBlocks response.content)),
                             ("knowledge_result", .str kb_result)]
                  else base),
           true, some (.str kb_result), true⟩
        else
          ⟨.dict [("error", .str ("Unsupported tool requested: " ++ tool_use.name))],
           false, none, false⟩
    | none =>
        ⟨.dict [("error", .str "Unsupported tool requested: None")],
         false, none, false⟩
  else
    ⟨.dict [("response", .str (concatTextBlocks response.content)),
            ("model", .str model), ("tool_used", .bool false)],
     false, none, false⟩

/-! ### Claim theorems -/

/-- Claim C5: `translate` on
`{method: "tools/execute", id: "x", params: {name: "ask-slite", input:
{question: "q"}}}` yields `method = "tools/call"`, the same id, and
`params = {name: "ask-slite", arguments: {question: "q"}}`, incrementing
`translations_count` by exactly 1; and a `tools/execute` request carrying a
(truthy) `name` but no `input` gets `arguments = {}`, never absent. -/
theorem c5_translate_execute :
    (∀ st : TranslatorState,
      SliteMethodTranslator.call st
        (.dict [("method", .str "tools/execute"), ("id", .str "x"),
                ("params", .dict [("name", .str "ask-slite"),
                                  ("input", .dict [("question", .str "q")])])]) =
      (.dict [("jsonrpc", .str "2.0"), ("id", .str "x"),
              ("method", .str "tools/call"),
              ("params", .dict [("name", .str "ask-slite"),
                                ("arguments", .dict [("question", .str "q")])])],
       ⟨st.translations_count + 1, st.errors_count, st.last_error⟩)) ∧
    (∀ (st : TranslatorState) (entries pe : List (String × Value)) (nm : Value),
      lookup entries "method" = some (.str "tools/execute") →
      lookup entries "params" = some (.dict pe) →
      lookup pe "name" = some nm →
      truthy nm = true →
      lookup pe "input" = none →
      SliteMethodTranslator.call st (.dict entries) =
        (.dict [("jsonrpc", .str "2.0"),
                ("id", (lookup entries "id").getD .null),
                ("method", .str "tools/call"),
                ("params", .dict [("name", nm), ("arguments", .dict [])])],
         ⟨st.translations_count + 1, st.errors_count, st.last_error⟩)) := by
  constructor
  · intro st
    rfl
  · intro st entries pe nm hm hp hn htr hi
    have hpe : truthy (Value.dict pe) = true := by
      cases pe with
      | nil => simp [lookup] at hn
      | cons hd tl => rfl
    have h1 : truthy (Value.str "tools/execute") = true := rfl
    have h2 : isStrVal (Value.str "tools/execute") "tools/execute" = true := by decide
    have h3 : truthy Value.null = false := rfl
    simp [SliteMethodTranslator.call, SliteMethodTranslator.translate_core,
          hm, hp, hn, htr, hi, hpe, h1, h2, h3]

/-- Witness for C5: the universal part applied to a concrete
`tools/execute` request with a `name` and no `input`. -/
theorem c5_translate_execute_witness :
    SliteMethodTranslator.call ⟨2, 3, none⟩
      (.dict [("method", .str "tools/execute"), ("id", .int 7),
              ("params", .dict [("name", .str "ask-slite")])]) =
      (.dict [("jsonrpc", .str "2.0"), ("id", .int 7),
              ("method", .str "tools/call"),
              ("params", .dict [("name", .str "ask-slite"),
                                ("arguments", .dict [])])],
       ⟨3, 3, none⟩) :=
  c5_translate_execute.2 ⟨2, 3, none⟩
    [("method", .str "tools/execute"), ("id", .int 7),
     ("params", .dict [("name", .str "ask-slite")])]
    [("name", .str "ask-slite")] (.str "ask-slite") rfl rfl rfl rfl rfl

/-- Claim C6: `translate` on a dict request missing its `params` key (or its
`method` key) returns the input unchanged, increments `errors_count` by
exactly 1, leaves `translations_count` unchanged, and records the error
message (the model is a total function: the source wraps the body in a
catch-all handler, so no exception escapes). -/
theorem c6_missing_field_passthrough
    (st : TranslatorState) (entries : List (String × Value))
    (h : lookup entries "params" = none ∨ lookup entries "method" = none) :
    SliteMethodTranslator.call st (.dict entries) =
      (.dict entries,
       ⟨st.translations_count, st.errors_count + 1,
        some "Request missing method or params"⟩) := by
  rcases h with h | h <;>
    simp [SliteMethodTranslator.call, SliteMethodTranslator.translate_core, h, truthy]

/-- Witness for C6: a request with a `method` but no `params`. -/
theorem c6_missing_field_passthrough_witness :
    SliteMethodTranslator.call ⟨5, 0, none⟩
      (.dict [("method", .str "tools/execute"), ("id", .str "x")]) =
      (.dict [("method", .str "tools/execute"), ("id", .str "x")],
       ⟨5, 1, some "Request missing method or params"⟩) :=
  c6_missing_field_passthrough ⟨5, 0, none⟩
    [("method", .str "tools/execute"), ("id", .str "x")] (Or.inl rfl)

/-- Claim C10: a request whose `params` key is present but maps to the empty
dict is treated as malformed — `params` is falsy, so the `not params` guard
fires: `errors_count` is incremented, the request is returned unchanged, and
no translation happens even for `method = "tools/execute"`. -/
theorem c10_empty_params_is_error
    (st : TranslatorState) (entries : List (String × Value))
    (h : lookup entries "params" = some (.dict [])) :
    SliteMethodTranslator.call st (.dict entries) =
      (.dict entries,
       ⟨st.translations_count, st.errors_count + 1,
        some "Request missing method or params"⟩) := by
  simp [SliteMethodTranslator.call, SliteMethodTranslator.translate_core, h, truthy]

/-- Witness for C10: a `tools/execute` request with `params = {}` is passed
through as an error, not translated. -/
theorem c10_empty_params_is_error_witness :
    SliteMethodTranslator.call ⟨0, 0, none⟩
      (.dict [("method", .str "tools/execute"), ("params", .dict [])]) =
      (.dict [("method", .str "tools/execute"), ("params", .dict [])],
       ⟨0, 1, some "Request missing method or params"⟩) :=
  c10_empty_params_is_error ⟨0, 0, none⟩
    [("method", .str "tools/execute"), ("params", .dict [])] rfl

/-- Counterexample to C3 as stated: on a mapping, `to_dict` returns the
argument object itself — the identity component is `true` — not an
independent shallow copy (a caller mutating the returned mapping mutates
the source).  Both `ResultProcessor.to_dict` and `utils.to_dict` behave
this way. -/
theorem c3_to_dict_counterexample :
    ResultProcessor.to_dict (.dict [("status", .str "ok")]) =
      .ok (.dict [("status", .str "ok")], true) ∧
    utils_to_dict (.dict [("status", .str "ok")]) =
      (.dict [("status", .str "ok")], true) :=
  ⟨rfl, rfl⟩

/-- Claim C3 amended: on a mapping payload, `to_dict` (both variants)
returns the mapping itself, aliased to the source; only
`ResultProcessor.process` returns a value-equal but independent shallow
copy (`dict(result)`), so only `process` gives the mutation-isolation the
claim describes. -/
theorem c3_alias_vs_copy (entries : List (String × Value)) :
    ResultProcessor.to_dict (.dict entries) = .ok (.dict entries, true) ∧
    utils_to_dict (.dict entries) = (.dict entries, true) ∧
    ResultProcessor.process (.dict entries) = (.dict entries, false) :=
  ⟨rfl, rfl, rfl⟩

/-- `"".join` over parts that are all strings is their concatenation. -/
theorem joinStrs_map_str (idx : Nat) (ss : List String) :
    joinStrs idx (ss.map Value.str) = .ok (ss.foldr (· ++ ·) "") := by
  induction ss generalizing idx with
  | nil => rfl
  | cons a t ih => simp [joinStrs, ih (idx + 1)]

/-- Claim C4 (amended to `ResultProcessor.extract_text`): on a sequence
whose elements all are type-tagged mappings, whose `"text"`-typed elements
carry string text fields `texts` (in sequence order), with at least one such
element, `extract_text` returns exactly the concatenation of `texts`,
silently skipping the elements of other types. -/
theorem c4_extract_text_concatenates (items : List Value) (texts : List String)
    (hAll : allTypedDicts items = true)
    (hTexts : typedTextParts items = texts.map Value.str)
    (hne : texts ≠ []) :
    ResultProcessor.extract_text (.list items) =
      .ok (some (.str (texts.foldr (· ++ ·) ""))) := by
  have hj := joinStrs_map_str 0 texts
  have hpe : (texts.map Value.str).isEmpty = false := by
    cases texts with
    | nil => exact absurd rfl hne
    | cons a t => rfl
  simp [ResultProcessor.extract_text, hAll, hTexts, hpe, hj]

/-- The interleaved block sequence of the C4 scenario: text blocks around a
non-text block. -/
def c4_blocks : List Value :=
  [.dict [("type", .str "text"), ("text", .str "a")],
   .dict [("type", .str "tool_use")],
   .dict [("type", .str "text"), ("text", .str "b")]]

/-- Witness for C4: the amended theorem applied to the interleaved blocks. -/
theorem c4_extract_text_concatenates_witness :
    ResultProcessor.extract_text (.list c4_blocks) = .ok (some (.str "ab")) :=
  c4_extract_text_concatenates c4_blocks ["a", "b"] rfl rfl (by decide)

/-- Counterexample to C4 as stated: the repository has a second
implementation, `extract_text` in `src/tools/utils.py`, which concatenates
only when every element is `"text"`-typed; on text elements interleaved
with another type it serializes the whole sequence instead of skipping the
non-text elements, so it does not return the concatenation "ab" that the
claim prescribes (`ResultProcessor.extract_text` does). -/
theorem c4_utils_counterexample :
    utils_extract_text (.list c4_blocks) =
      .ok (some (.str (dumps (.list c4_blocks)))) ∧
    dumps (.list c4_blocks) ≠ "ab" ∧
    ResultProcessor.extract_text (.list c4_blocks) = .ok (some (.str "ab")) :=
  ⟨rfl, by decide, rfl⟩

/-- Claim C9 is contradicted by the code: `extract_text` does have an error
path.  When a collected text part is not a string the `"".join(text_parts)`
call raises an uncaught TypeError — here on the mapping
`{"content": [{"text": 5}]}` for `ResultProcessor.extract_text` and on the
sequence `[{"type": "text", "text": 5}]` for `utils.extract_text` — so the
function is not total on malformed payloads, against the stated invariant. -/
theorem c9_extract_text_raises :
    ResultProcessor.extract_text
        (.dict [("content", .list [.dict [("text", .int 5)]])]) =
      .error "sequence item 0: expected str instance, int found" ∧
    utils_extract_text (.list [.dict [("type", .str "text"), ("text", .int 5)]]) =
      .error "sequence item 0: expected str instance, int found" :=
  ⟨rfl, rfl⟩

/-- Counterexample to C8 as stated: on a transport failure the underlying
`call_method` does fail with the remote-kind error, but the wrapper
(`ask_slite`, hence `call_tool`) does not propagate it — it catches the
exception and returns the mapping `{"error": str(e)}` as a normal value. -/
theorem c8_wrapper_counterexample :
    SliteMCPClient.call_method "tools/call"
        (.dict [("name", .str "ask-slite"),
                ("arguments", .dict [("question", .str "q")])]) "xwai"
        (.httpErr "timeout") =
      .error (.remote "HTTP error: timeout") ∧
    SliteMCPClient.ask_slite "q" (.httpErr "timeout") =
      .dict [("error", .str "HTTP error: timeout")] :=
  ⟨rfl, rfl⟩

/-- Claim C8 amended: `call_method` fails with the remote kind on a
transport failure and with the distinct protocol kind when the response
body carries an `error` field (kinds distinguished by raise site and
message prefix on a shared ValueError); the named wrappers (via
`call_tool`) return the `result` field of the underlying response on
success, but on failure they catch the error and return `{error: message}`
instead of propagating it. -/
theorem c8_call_method_kinds_and_wrappers :
    (∀ (method : String) (params : Value) (rid m : String),
      SliteMCPClient.call_method method params rid (.httpErr m) =
        .error (.remote ("HTTP error: " ++ m))) ∧
    (∀ (method : String) (params : Value) (rid : String)
       (entries ee : List (String × Value)) (msg : String),
      lookup entries "error" = some (.dict ee) →
      lookup ee "message" = some (.str msg) →
      SliteMCPClient.call_method method params rid (.ok (.dict entries)) =
        .error (.protocol ("Slite-MCP error: " ++ msg))) ∧
    (∀ (name : String) (args : Value) (entries : List (String × Value)) (r : Value),
      hasKey entries "error" = false →
      lookup entries "result" = some r →
      SliteMCPClient.call_tool name args (.ok (.dict entries)) = r) ∧
    (∀ (name : String) (args : Value) (m : String),
      SliteMCPClient.call_tool name args (.httpErr m) =
        .dict [("error", .str ("HTTP error: " ++ m))]) := by
  refine ⟨fun _ _ _ _ => rfl, ?_, ?_, fun _ _ _ => rfl⟩
  · intro method params rid entries ee msg he hm
    have hk : hasKey entries "error" = true := by simp [hasKey, he]
    simp [SliteMCPClient.call_method, pyInError, hk, he, hm, pyStr]
  · intro name args entries r he hr
    simp [SliteMCPClient.call_tool, SliteMCPClient.call_method, pyInError, he, hr]

/-- Witness for C8: the protocol-error and success conclusions of the
amended theorem at concrete exchanges. -/
theorem c8_call_method_kinds_and_wrappers_witness :
    SliteMCPClient.call_method "tools/call" (.dict []) "xwai"
        (.ok (.dict [("jsonrpc", .str "2.0"),
                     ("error", .dict [("code", .int 1),
                                      ("message", .str "bad request")])])) =
      .error (.protocol "Slite-MCP error: bad request") ∧
    SliteMCPClient.call_tool "ask-slite" (.dict [("question", .str "q")])
        (.ok (.dict [("jsonrpc", .str "2.0"),
                     ("result", .dict [("answer", .str "9-5")])])) =
      .dict [("answer", .str "9-5")] :=
  ⟨c8_call_method_kinds_and_wrappers.2.1 "tools/call" (.dict []) "xwai"
      [("jsonrpc", .str "2.0"),
       ("error", .dict [("code", .int 1), ("message", .str "bad request")])]
      [("code", .int 1), ("message", .str "bad request")] "bad request" rfl rfl,
   c8_call_method_kinds_and_wrappers.2.2.1 "ask-slite" (.dict [("question", .str "q")])
      [("jsonrpc", .str "2.0"), ("result", .dict [("answer", .str "9-5")])]
      (.dict [("answer", .str "9-5")]) rfl rfl⟩

/-- The normalization both orchestrators apply to a successful gateway
payload before sending it back as the `tool_result` content: the first
content text when truthy (coerced to `str` when not a string), else
`json.dumps` of the whole payload.  Always a plain string. -/
def kb_result_text (payload : Value) : String :=
  let rt := (firstContentText payload).getD .null
  if truthy rt then
    match rt with
    | .str s => s
    | v => pyStr v
  else dumps payload

/-- Counterexample to C1 as stated: on the payload
`{content: [{type: "text", text: "a"}, {type: "text", text: "b"}]}` the
orchestrator sends only the first text item, "a", as the `tool_result`
content, while `ResultNormalizer.extractText` of the payload is the
concatenation "ab" — the content sent is not `extractText(p)`. -/
theorem c1_first_text_counterexample :
    (ask_claude_with_tools "office hours" "m"
        ⟨"tool_use", [⟨"tool_use", "", "toolu_1", "company_knowledge",
                       [("query", .str "office hours")]⟩]⟩
        (.ok (.dict [("content",
          .list [.dict [("type", .str "text"), ("text", .str "a")],
                 .dict [("type", .str "text"), ("text", .str "b")]])]))
        ⟨"end_turn", [⟨"text", "Done.", "", "", []⟩]⟩).toolResultContent =
      some (.str "a") ∧
    ResultProcessor.extract_text
        (.dict [("content",
          .list [.dict [("type", .str "text"), ("text", .str "a")],
                 .dict [("type", .str "text"), ("text", .str "b")]])]) =
      .ok (some (.str "ab")) ∧
    ("a" : String) ≠ "ab" :=
  ⟨rfl, rfl, by decide⟩

/-- Claim C1 amended: when the first model response requests the
recognized tool `company_knowledge` and the gateway call succeeds with
payload `p`, both orchestrators send back a `tool_result` whose content is
always a plain text string — namely the text of the first text-carrying
content item of `p` when truthy (coerced to `str`), else `json.dumps(p)` —
not `ResultNormalizer.extractText(p)`. -/
theorem c1_tool_result_is_plain_string
    (query model : String) (response : ModelResponse) (payload : Value)
    (followup : ModelResponse) (tool_use : MsgBlock) (sr : Bool)
    (hstop : response.stop_reason = "tool_use")
    (hfind : findToolUse response.content = some tool_use)
    (hname : tool_use.name = "company_knowledge") :
    (ask_claude_with_tools query model response (.ok payload) followup).toolResultContent =
      some (.str (kb_result_text payload)) ∧
    (ask_claude_with_tools query model response (.ok payload) followup).followupSent = true ∧
    (get_claude_response query model response (.ok payload) followup sr).toolResultContent =
      some (.str (kb_result_text payload)) := by
  cases h : truthy ((firstContentText payload).getD Value.null) <;>
    simp [ask_claude_with_tools, get_claude_response, query_knowledge_base,
          kb_result_text, hstop, hfind, hname, h]

/-- Witness for C1: the amended theorem at a one-item payload; the sent
content is the plain string "9-5". -/
theorem c1_tool_result_is_plain_string_witness :
    (ask_claude_with_tools "office hours" "m"
        ⟨"tool_use", [⟨"tool_use", "", "toolu_1", "company_knowledge",
                       [("query", .str "office hours")]⟩]⟩
        (.ok (.dict [("content",
          .list [.dict [("type", .str "text"), ("text", .str "9-5")]])]))
        ⟨"end_turn", [⟨"text", "Done.", "", "", []⟩]⟩).toolResultContent =
      some (.str "9-5") :=
  (c1_tool_result_is_plain_string "office hours" "m"
    ⟨"tool_use", [⟨"tool_use", "", "toolu_1", "company_knowledge",
                   [("query", .str "office hours")]⟩]⟩
    (.dict [("content", .list [.dict [("type", .str "text"), ("text", .str "9-5")]])])
    ⟨"end_turn", [⟨"text", "Done.", "", "", []⟩]⟩
    ⟨"tool_use", "", "toolu_1", "company_knowledge", [("query", .str "office hours")]⟩
    false rfl rfl rfl).1

/-- Counterexample to C2 as stated: in `get_claude_response` a gateway
failure with message "timeout" does not terminate the run in the error
state — `query_knowledge_base` converts it to the plain string
"Error retrieving knowledge: timeout", which is sent to the model as the
`tool_result` content, the follow-up request is sent, and the run
completes with a result mapping that has no `error` key. -/
theorem c2_direct_counterexample :
    get_claude_response "office hours" "m"
        ⟨"tool_use", [⟨"tool_use", "", "toolu_1", "company_knowledge",
                       [("query", .str "office hours")]⟩]⟩
        (.error "timeout")
        ⟨"end_turn", [⟨"text", "Done.", "", "", []⟩]⟩ false =
      ⟨.dict [("response", .str "Done."), ("model", .str "m"),
              ("tool_used", .bool true), ("knowledge_query", .str "office hours")],
       true, some (.str "Error retrieving knowledge: timeout"), true⟩ ∧
    hasKey [("response", .str "Done."), ("model", .str "m"),
            ("tool_used", .bool true), ("knowledge_query", .str "office hours")]
      "error" = false :=
  ⟨rfl, rfl⟩

/-- Claim C2 amended: when the first model response requests
`company_knowledge` and the gateway call raises with message `m`,
`ask_claude_with_tools` terminates in the error state with
`{error: "Error querying knowledge base: " + m}` and sends no follow-up
request, while `get_claude_response` instead converts the failure to the
string "Error retrieving knowledge: " + m, sends it to the model as the
`tool_result` content, and does send the follow-up request. -/
theorem c2_gateway_failure
    (query model : String) (response followup : ModelResponse)
    (m : String) (tool_use : MsgBlock) (sr : Bool)
    (hstop : response.stop_reason = "tool_use")
    (hfind : findToolUse response.content = some tool_use)
    (hname : tool_use.name = "company_knowledge") :
    ask_claude_with_tools query model response (.error m) followup =
      ⟨.dict [("error", .str ("Error querying knowledge base: " ++ m))],
       true, none, false⟩ ∧
    (get_claude_response query model response (.error m) followup sr).toolResultContent =
      some (.str ("Error retrieving knowledge: " ++ m)) ∧
    (get_claude_response query model response (.error m) followup sr).followupSent =
      true := by
  simp [ask_claude_with_tools, get_claude_response, query_knowledge_base,
        hstop, hfind, hname]

/-- Witness for C2: the amended theorem at the "timeout" scenario. -/
theorem c2_gateway_failure_witness :
    ask_claude_with_tools "office hours" "m"
        ⟨"tool_use", [⟨"tool_use", "", "toolu_1", "company_knowledge",
                       [("query", .str "office hours")]⟩]⟩
        (.error "timeout")
        ⟨"end_turn", [⟨"text", "Done.", "", "", []⟩]⟩ =
      ⟨.dict [("error", .str "Error querying knowledge base: timeout")],
       true, none, false⟩ :=
  (c2_gateway_failure "office hours" "m"
    ⟨"tool_use", [⟨"tool_use", "", "toolu_1", "company_knowledge",
                   [("query", .str "office hours")]⟩]⟩
    ⟨"end_turn", [⟨"text", "Done.", "", "", []⟩]⟩ "timeout"
    ⟨"tool_use", "", "toolu_1", "company_knowledge", [("query", .str "office hours")]⟩
    false rfl rfl rfl).1

/-- Claim C7: when the first model response has the tool-use stop condition
but its first `tool_use` block names a tool other than `company_knowledge`
(or it contains no `tool_use` block), both orchestrators terminate with
`{error: "Unsupported tool requested: <name or None>"}` and the knowledge
gateway is not called (the outcome holds for every gateway behavior and
records `gatewayCalled = false`). -/
theorem c7_unsupported_tool :
    (∀ (query model : String) (response : ModelResponse)
       (gateway : Except String Value) (followup : ModelResponse)
       (tool_use : MsgBlock) (sr : Bool),
      response.stop_reason = "tool_use" →
      findToolUse response.content = some tool_use →
      tool_use.name ≠ "company_knowledge" →
      ask_claude_with_tools query model response gateway followup =
        ⟨.dict [("error", .str ("Unsupported tool requested: " ++ tool_use.name))],
         false, none, false⟩ ∧
      get_claude_response query model response gateway followup sr =
        ⟨.dict [("error", .str ("Unsupported tool requested: " ++ tool_use.name))],
         false, none, false⟩) ∧
    (∀ (query model : String) (response : ModelResponse)
       (gateway : Except String Value) (followup : ModelResponse) (sr : Bool),
      response.stop_reason = "tool_use" →
      findToolUse response.content = none →
      ask_claude_with_tools query model response gateway followup =
        ⟨.dict [("error", .str "Unsupported tool requested: None")],
         false, none, false⟩ ∧
      get_claude_response query model response gateway followup sr =
        ⟨.dict [("error", .str "Unsupported tool requested: None")],
         false, none, false⟩) := by
  constructor
  · intro query model response gateway followup tool_use sr hstop hfind hname
    constructor <;>
      simp [ask_claude_with_tools, get_claude_response, hstop, hfind, hname]
  · intro query model response gateway followup sr hstop hfind
    constructor <;>
      simp [ask_claude_with_tools, get_claude_response, hstop, hfind]

/-- Witness for C7: the unrecognized tool name "weather" yields the error
result with no gateway call. -/
theorem c7_unsupported_tool_witness :
    ask_claude_with_tools "q" "m"
        ⟨"tool_use", [⟨"tool_use", "", "toolu_1", "weather", []⟩]⟩
        (.error "unused")
        ⟨"end_turn", []⟩ =
      ⟨.dict [("error", .str "Unsupported tool requested: weather")],
       false, none, false⟩ ∧
    get_claude_response "q" "m"
        ⟨"tool_use", [⟨"tool_use", "", "toolu_1", "weather", []⟩]⟩
        (.error "unused")
        ⟨"end_turn", []⟩ false =
      ⟨.dict [("error", .str "Unsupported tool requested: weather")],
       false, none, false⟩ :=
  c7_unsupported_tool.1 "q" "m"
    ⟨"tool_use", [⟨"tool_use", "", "toolu_1", "weather", []⟩]⟩
    (.error "unused") ⟨"end_turn", []⟩
    ⟨"tool_use", "", "toolu_1", "weather", []⟩ false rfl rfl (by decide)
